import Mathlib

/-!
Verification of the deep-search MCP adapter (src/index.ts).

The adapter exposes one tool, "deep_search".  This development shallowly
embeds the two request handlers (list-tools and call-tool), the startup
credential check, and the JavaScript value coercions the handler relies on
(ToString, ToNumber, the `||` defaulting idiom and optional chaining on the
untyped `arguments` mapping), and proves the spec's claims about them.
-/

namespace DeepSearchMCP

/-- A JavaScript number: NaN, a signed infinity, or a finite value
(modelled as a rational; the adapter never does arithmetic on numbers,
it only tests truthiness, so float rounding is irrelevant here). -/
inductive JSNum where
  | nan : JSNum
  | inf (neg : Bool) : JSNum
  | finite (q : ℚ) : JSNum
deriving DecidableEq

/-- The JavaScript values that can appear in the tool-call `arguments`
mapping as the adapter consumes them. -/
inductive JSValue where
  | undefined : JSValue
  | null : JSValue
  | bool (b : Bool) : JSValue
  | num (n : JSNum) : JSValue
  | str (s : String) : JSValue
deriving DecidableEq

/-- Truthiness of a JS number: NaN and zero are falsy, everything else
(including the infinities) is truthy. -/
def jsNumTruthy : JSNum → Bool
  | .nan => false
  | .inf _ => true
  | .finite q => decide (q ≠ 0)

/-- ECMAScript ToString on numbers, to the extent the adapter can observe
it (integers exact; non-integer finite values are rendered via the
rational's own representation, which no claim depends on). -/
def jsNumToString : JSNum → String
  | .nan => "NaN"
  | .inf false => "Infinity"
  | .inf true => "-Infinity"
  | .finite q => if q.den = 1 then toString q.num else toString q

/-- ECMAScript ToString, the semantics of the source's String(x) on the
values of JSValue; in particular String(undefined) is the NON-empty
string "undefined". -/
def jsToString : JSValue → String
  | .undefined => "undefined"
  | .null => "null"
  | .bool true => "true"
  | .bool false => "false"
  | .num n => jsNumToString n
  | .str s => s

/-- JS whitespace stripped by ToNumber on strings. -/
def isJsWhitespace (c : Char) : Bool :=
  c = ' ' || c = '\t' || c = '\n' || c = '\r'

/-- Accumulator-style decimal digit run. -/
def parseNatAux : List Char → ℕ → Option ℕ
  | [], acc => some acc
  | c :: cs, acc =>
    if c.isDigit then parseNatAux cs (acc * 10 + (c.toNat - 48)) else none

/-- A non-empty run of decimal digits. -/
def parseNatDigits (cs : List Char) : Option ℕ :=
  if cs = [] then none else parseNatAux cs 0

/-- An optionally signed non-empty run of decimal digits (exponents). -/
def parseSignedNat : List Char → Option ℤ
  | '+' :: rest => (parseNatDigits rest).map Int.ofNat
  | '-' :: rest => (parseNatDigits rest).map (fun n => -(n : ℤ))
  | cs => (parseNatDigits cs).map Int.ofNat

/-- An unsigned decimal mantissa: digits, digits.digits, digits., or
.digits. -/
def parseUnsignedDec (cs : List Char) : Option ℚ :=
  match cs.span (fun c => c.isDigit) with
  | (intPart, []) => (parseNatDigits intPart).map (fun n => (n : ℚ))
  | (intPart, '.' :: fracPart) =>
    if intPart = [] then
      (parseNatDigits fracPart).map
        (fun n => (n : ℚ) / (10 : ℚ) ^ fracPart.length)
    else if fracPart = [] then
      (parseNatDigits intPart).map (fun n => (n : ℚ))
    else
      match parseNatDigits intPart, parseNatDigits fracPart with
      | some i, some f =>
        some ((i : ℚ) + (f : ℚ) / (10 : ℚ) ^ fracPart.length)
      | _, _ => none
  | _ => none

/-- An unsigned mantissa with an optional decimal exponent. -/
def parseMantissaExp (cs : List Char) : Option ℚ :=
  match cs.span (fun c => c.isDigit || c = '.') with
  | (mant, []) => parseUnsignedDec mant
  | (mant, e :: erest) =>
    if e = 'e' ∨ e = 'E' then
      match parseUnsignedDec mant, parseSignedNat erest with
      | some m, some ex => some (m * (10 : ℚ) ^ ex)
      | _, _ => none
    else none

/-- ECMAScript ToNumber on strings: trimmed whitespace, the empty string
is 0, Infinity forms, signed decimal literals with optional fraction and
exponent; everything else is NaN.  (Hex, octal and binary literals are
not modelled; no claim touches them.) -/
def stringToNumber (s : String) : JSNum :=
  let t := ((s.toList.dropWhile isJsWhitespace).reverse.dropWhile
    isJsWhitespace).reverse
  if t = [] then .finite 0
  else if t = "Infinity".toList then .inf false
  else if t = "+Infinity".toList then .inf false
  else if t = "-Infinity".toList then .inf true
  else
    match t with
    | '+' :: rest =>
      match parseMantissaExp rest with
      | some q => .finite q
      | none => .nan
    | '-' :: rest =>
      match parseMantissaExp rest with
      | some q => .finite (-q)
      | none => .nan
    | _ =>
      match parseMantissaExp t with
      | some q => .finite q
      | none => .nan

/-- ECMAScript ToNumber, the semantics of the source's Number(x):
Number(undefined) is NaN, Number(null) is 0, booleans map to 1 and 0. -/
def jsToNumber : JSValue → JSNum
  | .undefined => .nan
  | .null => .finite 0
  | .bool true => .finite 1
  | .bool false => .finite 0
  | .num n => n
  | .str s => stringToNumber s

/-- The untyped `arguments` mapping of a tool-call request. -/
abbrev Arguments := List (String × JSValue)

/-- Optional chaining plus property access, the semantics of the source's
request.params.arguments?.key : the whole access is undefined when the
mapping is absent or the key is missing. -/
def getArg (args : Option Arguments) (key : String) : JSValue :=
  match args with
  | none => .undefined
  | some l => (l.lookup key).getD .undefined

/-- The request the handler sends to the external client
(linkupClient.search argument object, index.ts lines 92-97). -/
structure SearchRequest where
  query : String
  depth : String
  outputType : String
  includeImages : Bool
deriving DecidableEq

/-- The errors the call-tool handler can surface, tagged with the spec's
taxonomy; the message strings are the ones thrown by the source. -/
inductive HandlerError where
  | invalidArgument (message : String) : HandlerError
  | unknownTool (message : String) : HandlerError
  | upstream (message : String) : HandlerError
deriving DecidableEq

/-- One content block of a tool-call result. -/
structure ContentBlock where
  type : String
  text : String
deriving DecidableEq

/-- The response envelope of a successful tool call. -/
structure ToolCallResult where
  content : List ContentBlock
deriving DecidableEq

/-- The request.params the call-tool handler receives: a tool name and an
optional untyped arguments mapping. -/
structure ToolCallParams where
  name : String
  arguments : Option Arguments
deriving DecidableEq

/-- A handler run instrumented with the list of external search calls it
performed, so that claims about the number and shape of external calls
are statable. -/
structure HandlerOutcome where
  result : Except HandlerError ToolCallResult
  calls : List SearchRequest

/-- The JS `x || d` defaulting idiom on numbers: d when x is falsy
(NaN or zero), x otherwise. -/
def jsNumOr (n d : JSNum) : JSNum :=
  if jsNumTruthy n then n else d

/-- index.ts line 85: const query = String(request.params.arguments?.query). -/
def coercedQuery (args : Option Arguments) : String :=
  jsToString (getArg args "query")

/-- index.ts line 86:
const maxResults = Number(request.params.arguments?.max_results) || 5. -/
def coercedMaxResults (args : Option Arguments) : JSNum :=
  jsNumOr (jsToNumber (getArg args "max_results")) (.finite 5)

/-- The fixed shape of the external search request (index.ts lines 92-97):
the coerced query, deep mode, sourced-answer output, images excluded. -/
def mkSearchRequest (query : String) : SearchRequest :=
  { query := query, depth := "deep", outputType := "sourcedAnswer",
    includeImages := false }

/-- The CallToolRequestSchema handler (index.ts lines 81-109), parameterized
over the external client behaviour (`search`, which may fail with a message)
and the JSON serializer applied to the raw result object.  The returned
outcome records the external calls actually issued. -/
def callToolHandler {ρ : Type} (search : SearchRequest → Except String ρ)
    (stringifyResult : ρ → String) (request : ToolCallParams) :
    HandlerOutcome :=
  if request.name = "deep_search" then
    let query := coercedQuery request.arguments
    let maxResults := coercedMaxResults request.arguments
    if query = "" then
      { result := .error (.invalidArgument "Search query is required"),
        calls := [] }
    else
      let req := mkSearchRequest query
      match search req with
      | .error e => { result := .error (.upstream e), calls := [req] }
      | .ok results =>
        { result := .ok { content :=
            [{ type := "text", text := stringifyResult results }] },
          calls := [req] }
  else
    { result := .error (.unknownTool "Unknown tool"), calls := [] }

/-- One property of the declared input schema. -/
structure PropertySchema where
  type : String
  defaultVal : Option JSNum
  description : String
deriving DecidableEq

/-- The declared input schema of a tool: a type tag, named properties and
the list of required property names. -/
structure InputSchema where
  type : String
  properties : List (String × PropertySchema)
  required : List String
deriving DecidableEq

/-- A tool descriptor as returned by the list-tools handler. -/
structure ToolDescriptor where
  name : String
  description : String
  inputSchema : InputSchema
deriving DecidableEq

/-- The response of the list-tools handler. -/
structure ListToolsResult where
  tools : List ToolDescriptor
deriving DecidableEq

/-- The input schema declared for deep_search (index.ts lines 57-72):
query is a required string, max_results a number with default 5.  Note it
carries no minimum-length constraint on query. -/
def deepSearchInputSchema : InputSchema :=
  { type := "object"
    properties :=
      [("query",
        { type := "string", defaultVal := none,
          description := "Search query" }),
       ("max_results",
        { type := "number", defaultVal := some (.finite 5),
          description := "Maximum number of results to return" })]
    required := ["query"] }

/-- The single tool descriptor the adapter registers. -/
def deepSearchTool : ToolDescriptor :=
  { name := "deep_search"
    description := "Perform a deep web search using LinkUp API"
    inputSchema := deepSearchInputSchema }

/-- The ListToolsRequestSchema handler (index.ts lines 52-76): a constant
function returning the fixed one-element tool list. -/
def listToolsHandler : ListToolsResult :=
  { tools := [deepSearchTool] }

/-- Whether a JS value conforms to a declared property type tag (the
fragment of JSON-Schema typing the declared schema uses). -/
def valueMatchesType (t : String) (v : JSValue) : Bool :=
  if t = "string" then
    match v with
    | .str _ => true
    | _ => false
  else if t = "number" then
    match v with
    | .num _ => true
    | _ => false
  else true

/-- Whether an arguments object satisfies a declared input schema: every
required key is present, and every supplied property that the schema
declares has a conforming type (extra properties are allowed, as the
declared schema sets no additionalProperties restriction). -/
def satisfiesSchema (s : InputSchema) (obj : Arguments) : Bool :=
  s.required.all (fun k => (obj.lookup k).isSome) &&
  obj.all (fun kv =>
    match s.properties.lookup kv.1 with
    | some p => valueMatchesType p.type kv.2
    | none => true)

/-- The external-client handle constructed at startup. -/
structure LinkupClientHandle where
  apiKey : String
deriving DecidableEq

/-- The result of the module-load credential check: either a fatal error
(the process never serves a request) or a started process holding the one
constructed client handle. -/
inductive StartupOutcome where
  | fatal (message : String) : StartupOutcome
  | started (client : LinkupClientHandle) : StartupOutcome
deriving DecidableEq

/-- JS falsiness of process.env.LINKUP_API_KEY: the variable is unset, or
set to the empty string. -/
def envIsFalsy (v : Option String) : Bool :=
  match v with
  | none => true
  | some s => s = ""

/-- The startup check (index.ts lines 26-31): throw if the credential is
falsy, otherwise construct the single LinkupClient handle from it. -/
def startup (linkupApiKey : Option String) : StartupOutcome :=
  if envIsFalsy linkupApiKey then
    .fatal "LINKUP_API_KEY environment variable is required"
  else
    .started { apiKey := linkupApiKey.getD "" }

/-! Helper lemmas shared by the claim theorems. -/

/-- A JS number is falsy exactly when it is NaN or zero. -/
theorem jsNumTruthy_eq_false_iff (n : JSNum) :
    jsNumTruthy n = false ↔ n = JSNum.nan ∨ n = JSNum.finite 0 := by
  cases n with
  | nan => simp [jsNumTruthy]
  | inf neg => simp [jsNumTruthy]
  | finite q => simp [jsNumTruthy]

/-- On a non-"deep_search" name, the handler rejects with UnknownTool and
issues no external call. -/
theorem callToolHandler_other {ρ : Type}
    (search : SearchRequest → Except String ρ) (stringifyResult : ρ → String)
    (request : ToolCallParams) (hname : request.name ≠ "deep_search") :
    callToolHandler search stringifyResult request =
      { result := .error (.unknownTool "Unknown tool"), calls := [] } := by
  simp [callToolHandler, hname]

/-- On "deep_search" with an empty coerced query, the handler rejects with
InvalidArgument and issues no external call. -/
theorem callToolHandler_emptyQuery {ρ : Type}
    (search : SearchRequest → Except String ρ) (stringifyResult : ρ → String)
    (request : ToolCallParams) (hname : request.name = "deep_search")
    (hq : coercedQuery request.arguments = "") :
    callToolHandler search stringifyResult request =
      { result := .error (.invalidArgument "Search query is required"),
        calls := [] } := by
  simp [callToolHandler, hname, hq]

/-- On "deep_search" with a non-empty coerced query, the handler issues
exactly the one fixed-shape external call, whatever the client returns. -/
theorem callToolHandler_calls {ρ : Type}
    (search : SearchRequest → Except String ρ) (stringifyResult : ρ → String)
    (request : ToolCallParams) (hname : request.name = "deep_search")
    (hq : coercedQuery request.arguments ≠ "") :
    (callToolHandler search stringifyResult request).calls =
      [mkSearchRequest (coercedQuery request.arguments)] := by
  simp only [callToolHandler, hname, if_pos]
  simp only [if_neg hq]
  cases search (mkSearchRequest (coercedQuery request.arguments)) <;> rfl

/-- On "deep_search" with a non-empty coerced query and a successful
external call, the handler returns the single text block wrapping the
serialized raw result. -/
theorem callToolHandler_ok {ρ : Type}
    (search : SearchRequest → Except String ρ) (stringifyResult : ρ → String)
    (request : ToolCallParams) (r : ρ)
    (hname : request.name = "deep_search")
    (hq : coercedQuery request.arguments ≠ "")
    (hs : search (mkSearchRequest (coercedQuery request.arguments)) =
      Except.ok r) :
    (callToolHandler search stringifyResult request).result =
      Except.ok { content := [{ type := "text", text := stringifyResult r }] } := by
  simp only [callToolHandler, hname, if_pos]
  simp only [if_neg hq, hs]

/-! Claim theorems. -/

/-- C1 (code bug evidence): on a "deep_search" call with the arguments
mapping absent, the code does NOT fail with InvalidArgument: String of an
absent query is the non-empty string "undefined", so validation passes and
one external search call is issued with query "undefined" — contradicting
the spec's scenario (coerced query empty, InvalidArgument, zero calls) and
the declared schema's own `required: ["query"]`. -/
theorem c1_missing_query_code_behavior :
    coercedQuery none = "undefined" ∧
    callToolHandler (fun _ => Except.ok 0) (fun _ : Nat => "result")
      { name := "deep_search", arguments := none } =
    { result := Except.ok
        { content := [{ type := "text", text := "result" }] },
      calls := [mkSearchRequest "undefined"] } :=
  ⟨rfl, rfl⟩

/-- C2: on a "deep_search" call whose query argument coerces to the empty
string, the handler fails with InvalidArgument and the external client is
never invoked (the recorded call list is empty). -/
theorem c2_empty_query_invalid_argument {ρ : Type}
    (search : SearchRequest → Except String ρ) (stringifyResult : ρ → String)
    (request : ToolCallParams) (hname : request.name = "deep_search")
    (hq : coercedQuery request.arguments = "") :
    callToolHandler search stringifyResult request =
      { result := .error (.invalidArgument "Search query is required"),
        calls := [] } :=
  callToolHandler_emptyQuery search stringifyResult request hname hq

/-- C2 witness: the concrete call with arguments `(query "")`. -/
theorem c2_empty_query_invalid_argument_witness :
    callToolHandler (fun _ => Except.ok 0) (fun _ : Nat => "result")
      { name := "deep_search", arguments := some [("query", JSValue.str "")] } =
      { result := .error (.invalidArgument "Search query is required"),
        calls := [] } :=
  c2_empty_query_invalid_argument _ _ _ rfl rfl

/-- C3: the coerced max_results is the default 5 exactly when the numeric
coercion of the argument is falsy (NaN — which covers an absent or
non-numeric argument — or zero), and is that numeric coercion otherwise. -/
theorem c3_max_results_defaulting (args : Option Arguments) :
    (getArg args "max_results" = JSValue.undefined →
      jsToNumber (getArg args "max_results") = JSNum.nan) ∧
    (jsToNumber (getArg args "max_results") = JSNum.nan ∨
      jsToNumber (getArg args "max_results") = JSNum.finite 0 →
      coercedMaxResults args = JSNum.finite 5) ∧
    (jsToNumber (getArg args "max_results") ≠ JSNum.nan →
      jsToNumber (getArg args "max_results") ≠ JSNum.finite 0 →
      coercedMaxResults args = jsToNumber (getArg args "max_results")) := by
  refine ⟨fun h => by rw [h]; rfl, fun h => ?_, fun h1 h2 => ?_⟩
  · have hf : jsNumTruthy (jsToNumber (getArg args "max_results")) = false :=
      (jsNumTruthy_eq_false_iff _).mpr h
    simp [coercedMaxResults, jsNumOr, hf]
  · have ht : jsNumTruthy (jsToNumber (getArg args "max_results")) = true := by
      rcases Bool.eq_false_or_eq_true
        (jsNumTruthy (jsToNumber (getArg args "max_results"))) with ht | hf
      · exact ht
      · rcases (jsNumTruthy_eq_false_iff _).mp hf with h | h
        · exact absurd h h1
        · exact absurd h h2
    simp [coercedMaxResults, jsNumOr, ht]

/-- C3 witness: max_results supplied as 0 defaults to 5. -/
theorem c3_max_results_defaulting_witness :
    coercedMaxResults (some [("max_results", JSValue.num (JSNum.finite 0))]) =
      JSNum.finite 5 :=
  (c3_max_results_defaulting
    (some [("max_results", JSValue.num (JSNum.finite 0))])).2.1 (Or.inr rfl)

/-- C4: on a "deep_search" call with a non-empty coerced query, exactly one
external call is issued, and its request is the coerced query with deep
depth, sourcedAnswer output and includeImages false. -/
theorem c4_single_fixed_shape_call {ρ : Type}
    (search : SearchRequest → Except String ρ) (stringifyResult : ρ → String)
    (request : ToolCallParams) (hname : request.name = "deep_search")
    (hq : coercedQuery request.arguments ≠ "") :
    (callToolHandler search stringifyResult request).calls =
      [{ query := coercedQuery request.arguments, depth := "deep",
         outputType := "sourcedAnswer", includeImages := false }] :=
  callToolHandler_calls search stringifyResult request hname hq

/-- C4 witness: the concrete call with query "capital of France". -/
theorem c4_single_fixed_shape_call_witness :
    (callToolHandler (fun _ => Except.ok 0) (fun _ : Nat => "result")
      { name := "deep_search",
        arguments := some [("query", JSValue.str "capital of France")] }).calls =
      [{ query := "capital of France", depth := "deep",
         outputType := "sourcedAnswer", includeImages := false }] :=
  c4_single_fixed_shape_call _ _ _ rfl (by decide)

/-- C5: on a "deep_search" call where the external call succeeds with raw
result r, the returned ToolCallResult holds exactly one content block, of
kind "text", whose payload is the serialization of r. -/
theorem c5_success_wraps_serialized_result {ρ : Type}
    (search : SearchRequest → Except String ρ) (stringifyResult : ρ → String)
    (request : ToolCallParams) (r : ρ)
    (hname : request.name = "deep_search")
    (hq : coercedQuery request.arguments ≠ "")
    (hs : search (mkSearchRequest (coercedQuery request.arguments)) =
      Except.ok r) :
    (callToolHandler search stringifyResult request).result =
      Except.ok { content :=
        [{ type := "text", text := stringifyResult r }] } :=
  callToolHandler_ok search stringifyResult request r hname hq hs

/-- C5 witness: a concrete successful call. -/
theorem c5_success_wraps_serialized_result_witness :
    (callToolHandler (fun _ => Except.ok 7) (fun _ : Nat => "serialized")
      { name := "deep_search",
        arguments := some [("query", JSValue.str "paris")] }).result =
      Except.ok { content := [{ type := "text", text := "serialized" }] } :=
  c5_success_wraps_serialized_result _ _ _ 7 rfl (by decide) rfl

/-- C6: any tool name other than "deep_search" is rejected with
UnknownTool; no external call is made and no coercion or validation of the
arguments takes effect (the outcome is a constant independent of the
arguments). -/
theorem c6_unknown_tool_rejected {ρ : Type}
    (search : SearchRequest → Except String ρ) (stringifyResult : ρ → String)
    (request : ToolCallParams) (hname : request.name ≠ "deep_search") :
    callToolHandler search stringifyResult request =
      { result := .error (.unknownTool "Unknown tool"), calls := [] } :=
  callToolHandler_other search stringifyResult request hname

/-- C6 witness: the concrete call with name "unknown_tool". -/
theorem c6_unknown_tool_rejected_witness :
    callToolHandler (fun _ => Except.ok 0) (fun _ : Nat => "result")
      { name := "unknown_tool", arguments := none } =
      { result := .error (.unknownTool "Unknown tool"), calls := [] } :=
  c6_unknown_tool_rejected _ _ _ (by decide)

/-- If every entry of an arguments object passes a boolean check and a key
looks up to a value, the checked pair with that key passes the check. -/
theorem all_of_lookup (obj : Arguments) (p : String × JSValue → Bool)
    (hall : obj.all p = true) (k : String) (v : JSValue)
    (hl : obj.lookup k = some v) : p (k, v) = true := by
  induction obj with
  | nil => simp [List.lookup] at hl
  | cons kv rest ih =>
    rcases kv with ⟨k0, v0⟩
    rw [List.all_cons, Bool.and_eq_true] at hall
    rcases hall with ⟨hhd, htl⟩
    by_cases hk : k = k0
    · subst hk
      have : some v0 = some v := by simpa [List.lookup] using hl
      cases this
      exact hhd
    · have hbeq : (k == k0) = false := beq_eq_false_iff_ne.mpr hk
      exact ih htl (by simpa [List.lookup, hbeq] using hl)

/-- The formalization of "the declared input schema requires a non-empty
query string": every arguments object satisfying the schema carries a
query entry holding a non-empty string. -/
def schemaRequiresNonEmptyQuery (s : InputSchema) : Prop :=
  ∀ obj : Arguments, satisfiesSchema s obj = true →
    ∃ q : String, obj.lookup "query" = some (JSValue.str q) ∧ q ≠ ""

/-- C7 counterexample: the declared deep_search schema does NOT require a
non-empty query string — the object with query set to the empty string
satisfies it (the schema has no minimum-length constraint; emptiness is
only rejected later, by the handler). -/
theorem c7_counterexample_schema_admits_empty_query :
    ¬ schemaRequiresNonEmptyQuery deepSearchInputSchema := by
  intro h
  rcases h [("query", JSValue.str "")] rfl with ⟨q, hq, hne⟩
  simp [List.lookup] at hq
  exact hne hq.symm

/-- C7 (amended): the list-tools handler is the constant holding exactly
one descriptor, named "deep_search"; its schema declares query as a
required string property (no non-emptiness constraint) and max_results as
a numeric property with default 5, so every object satisfying the schema
carries a query entry of string type. -/
theorem c7_list_tools_fixed_descriptor :
    listToolsHandler.tools = [deepSearchTool] ∧
    deepSearchTool.name = "deep_search" ∧
    deepSearchTool.inputSchema.required = ["query"] ∧
    deepSearchTool.inputSchema.properties.lookup "query" =
      some { type := "string", defaultVal := none,
             description := "Search query" } ∧
    deepSearchTool.inputSchema.properties.lookup "max_results" =
      some { type := "number", defaultVal := some (JSNum.finite 5),
             description := "Maximum number of results to return" } ∧
    ∀ obj : Arguments, satisfiesSchema deepSearchInputSchema obj = true →
      ∃ v : JSValue, obj.lookup "query" = some v ∧
        valueMatchesType "string" v = true := by
  refine ⟨rfl, rfl, rfl, rfl, rfl, fun obj hsat => ?_⟩
  rw [satisfiesSchema, Bool.and_eq_true] at hsat
  rcases hsat with ⟨hreq, hprops⟩
  have hsome : (obj.lookup "query").isSome = true := by
    simpa [deepSearchInputSchema, List.all_cons] using hreq
  rcases Option.isSome_iff_exists.mp hsome with ⟨v, hv⟩
  refine ⟨v, hv, ?_⟩
  have := all_of_lookup obj _ hprops "query" v hv
  simpa [deepSearchInputSchema, List.lookup] using this

/-- C7 witness: instantiating the schema-satisfaction consequence at a
concrete satisfying object. -/
theorem c7_list_tools_fixed_descriptor_witness :
    ∃ v : JSValue,
      ([("query", JSValue.str "x")] : Arguments).lookup "query" = some v ∧
      valueMatchesType "string" v = true :=
  c7_list_tools_fixed_descriptor.2.2.2.2.2 [("query", JSValue.str "x")] rfl

/-- The formalization of "every present credential lets startup proceed":
for each key string the startup check constructs a client handle. -/
def presentCredentialAlwaysStarts : Prop :=
  ∀ k : String, ∃ c : LinkupClientHandle,
    startup (some k) = StartupOutcome.started c

/-- C8 counterexample: a credential that is present but empty is rejected
— the startup check tests JS falsiness, so LINKUP_API_KEY set to the
empty string is fatal even though the variable is present. -/
theorem c8_counterexample_empty_credential :
    ¬ presentCredentialAlwaysStarts := by
  intro h
  rcases h "" with ⟨c, hc⟩
  simp [startup, envIsFalsy] at hc

/-- C8 (amended): when the credential is falsy (absent or empty) startup
fails with the fatal configuration error and no request is ever served;
when it is present and non-empty, startup constructs exactly the one
client handle holding that key. -/
theorem c8_startup_credential_check (env : Option String) :
    (envIsFalsy env = true →
      startup env =
        StartupOutcome.fatal
          "LINKUP_API_KEY environment variable is required") ∧
    (∀ k : String, env = some k → k ≠ "" →
      startup env = StartupOutcome.started { apiKey := k }) := by
  constructor
  · intro h; simp [startup, h]
  · intro k hk hne
    subst hk
    have hf : envIsFalsy (some k) = false := by
      simp [envIsFalsy, hne]
    simp [startup, hf]

/-- C8 witness: the two concrete startup environments. -/
theorem c8_startup_credential_check_witness :
    startup none =
      StartupOutcome.fatal "LINKUP_API_KEY environment variable is required" ∧
    startup (some "key") = StartupOutcome.started { apiKey := "key" } :=
  ⟨(c8_startup_credential_check none).1 rfl,
   (c8_startup_credential_check (some "key")).2 "key" rfl (by decide)⟩

/-- C9: on a "deep_search" call with the query argument absent (the
arguments mapping missing, or present without a query key), the String
coercion yields the non-empty string "undefined", validation passes, and
exactly one external call is issued with query "undefined". -/
theorem c9_absent_query_sends_undefined {ρ : Type}
    (search : SearchRequest → Except String ρ) (stringifyResult : ρ → String)
    (request : ToolCallParams) (hname : request.name = "deep_search")
    (habs : request.arguments = none ∨
      ∃ l : Arguments, request.arguments = some l ∧ l.lookup "query" = none) :
    coercedQuery request.arguments = "undefined" ∧
    (callToolHandler search stringifyResult request).calls =
      [mkSearchRequest "undefined"] := by
  have hq : coercedQuery request.arguments = "undefined" := by
    rcases habs with h | ⟨l, hl, hnone⟩
    · rw [h]; rfl
    · rw [hl]; simp [coercedQuery, getArg, hnone, jsToString]
  have hne : coercedQuery request.arguments ≠ "" := by
    rw [hq]; decide
  have hc := callToolHandler_calls search stringifyResult request hname hne
  rw [hq] at hc
  exact ⟨hq, hc⟩

/-- C9 witness: the concrete call with no arguments mapping. -/
theorem c9_absent_query_sends_undefined_witness :
    coercedQuery (none : Option Arguments) = "undefined" ∧
    (callToolHandler (fun _ => Except.ok 0) (fun _ : Nat => "result")
      { name := "deep_search", arguments := none }).calls =
      [mkSearchRequest "undefined"] :=
  c9_absent_query_sends_undefined (fun _ => Except.ok 0)
    (fun _ : Nat => "result")
    { name := "deep_search", arguments := none } rfl (Or.inl rfl)

/-- C10: the external calls issued by the handler do not depend on the
max_results argument — two requests with the same name whose arguments
agree on every key other than max_results issue identical external search
requests (the coerced max-results value is computed but never forwarded). -/
theorem c10_max_results_noninterference {ρ : Type}
    (search : SearchRequest → Except String ρ) (stringifyResult : ρ → String)
    (name : String) (args1 args2 : Option Arguments)
    (hagree : ∀ k : String, k ≠ "max_results" →
      getArg args1 k = getArg args2 k) :
    (callToolHandler search stringifyResult
      { name := name, arguments := args1 }).calls =
    (callToolHandler search stringifyResult
      { name := name, arguments := args2 }).calls := by
  have hq : coercedQuery args1 = coercedQuery args2 := by
    unfold coercedQuery
    rw [hagree "query" (by decide)]
  by_cases hn : name = "deep_search"
  · by_cases he : coercedQuery args1 = ""
    · rw [callToolHandler_emptyQuery search stringifyResult _ hn he,
        callToolHandler_emptyQuery search stringifyResult _ hn
          (hq.symm.trans he)]
    · rw [callToolHandler_calls search stringifyResult _ hn he,
        callToolHandler_calls search stringifyResult _ hn
          (fun h => he (hq.trans h)), hq]
  · rw [callToolHandler_other search stringifyResult _ hn,
      callToolHandler_other search stringifyResult _ hn]

/-- C10 witness: two concrete calls identical except for max_results (3
versus 7) issue the same single external request. -/
theorem c10_max_results_noninterference_witness :
    (callToolHandler (fun _ => Except.ok 0) (fun _ : Nat => "result")
      { name := "deep_search",
        arguments := some [("query", JSValue.str "paris"),
          ("max_results", JSValue.num (JSNum.finite 3))] }).calls =
    (callToolHandler (fun _ => Except.ok 0) (fun _ : Nat => "result")
      { name := "deep_search",
        arguments := some [("query", JSValue.str "paris"),
          ("max_results", JSValue.num (JSNum.finite 7))] }).calls :=
  c10_max_results_noninterference _ _ _ _ _ (by
    intro k hk
    by_cases hkq : k = "query"
    · subst hkq; rfl
    · have h1 : (k == "query") = false := beq_eq_false_iff_ne.mpr hkq
      have h2 : (k == "max_results") = false := beq_eq_false_iff_ne.mpr hk
      simp [getArg, List.lookup, h1, h2])

end DeepSearchMCP
